import Mathlib

/-
Verification of the Jobly query-fragment builders.

This file shallowly embeds, in Lean 4, the SQL-fragment construction code of
the Jobly repository:

  * `sqlForPartialUpdate`            (src/helpers/sql.js)
  * `Company.findAll`                (src/models/company.js)
  * `Job.findAll`                    (src/models/job.js)
  * `Company001.findAll`             (src/unnamed/part_001, a second variant
                                      of the company model)
  * `JoblyJob.findAll`               (src/Jobly/models/job.js, a second
                                      variant of the job model)

JavaScript objects that are used as ordered field mappings are embedded as
association lists (`List (String × _)`), preserving insertion order, which is
what `Object.keys` / `Object.values` iterate in.  JavaScript `undefined` for
an absent destructured key is embedded as `Option.none`.  Template-literal
strings are copied verbatim from the source, including their exact newlines
and indentation.  `throw new BadRequestError(msg)` is embedded as returning
`Except.error (JoblyError.badRequest msg)`; since both model methods throw
before their single `db.query` call, an `.error` result means no query string
was ever produced for dispatch.
-/

namespace Jobly

/-- A value bound into the positionally-matched parameter list of a query.
The repository binds strings (pattern filters, handles), numbers (employee
counts, salaries) and occasionally `null` column values. -/
inductive SqlValue where
  | str (s : String)
  | num (n : Int)
  | null
deriving DecidableEq, Repr

/-- The two error classes of src/expressError.js that the modelled code can
raise: `BadRequestError` (status 400) and `NotFoundError` (status 404). -/
inductive JoblyError where
  | badRequest (msg : String)
  | notFound (msg : String)
deriving DecidableEq, Repr

/-- JS column resolution `jsToSql[colName] || colName` from
src/helpers/sql.js line 20: the alias is used when the lookup yields a
truthy value; an absent key (`undefined`) or an empty-string alias (both
falsy in JS) fall back to the key itself. -/
def aliasOrKey (jsToSql : List (String × String)) (colName : String) : String :=
  match jsToSql.lookup colName with
  | some a => if a = "" then colName else a
  | none => colName

/-- src/helpers/sql.js `sqlForPartialUpdate(dataToUpdate, jsToSql)`.

`dataToUpdate` is the ordered field mapping (JS object in insertion order),
`jsToSql` the field-name → column-name alias mapping.  Returns
`(setCols, values)` on success; throws `BadRequestError("No data")` on an
empty mapping (line 16). -/
def sqlForPartialUpdate (dataToUpdate : List (String × SqlValue))
    (jsToSql : List (String × String)) : Except JoblyError (String × List SqlValue) :=
  let keys := dataToUpdate.map Prod.fst
  if keys.length = 0 then .error (.badRequest "No data")
  else
    let cols := keys.enum.map (fun p =>
      "\"" ++ aliasOrKey jsToSql p.2 ++ "\"=$" ++ toString (p.1 + 1))
    .ok (String.intercalate ", " cols, dataToUpdate.map Prod.snd)

/-- JS `minEmployees > maxEmployees` where either side may be `undefined`:
any `>` comparison involving `undefined` evaluates to `false` in JS, so the
guard fires only when both bounds are present and `a > b`. -/
def jsGT : Option Int → Option Int → Bool
  | some a, some b => a > b
  | _, _ => false

/-- JS truthiness test `if (name)` on a possibly-undefined string: `undefined`
and the empty string are falsy, every other string is truthy. -/
def jsTruthyStr : Option String → Bool
  | some s => !(s == "")
  | none => false

namespace Company

/-- The `baseQuery` template literal of src/models/company.js lines 78-84,
verbatim.  Note that it ends with a dangling `WHERE ` before any clause is
known to exist. -/
def baseQuery : String :=
  "SELECT handle,\n                            name,\n                            description,\n                            num_employees AS \"numEmployees\",\n                            logo_url AS \"logoUrl\"\n                     FROM companies\n                     WHERE "

/-- The destructured `searchCriteria` object of src/models/company.js line 85:
`const { name, minEmployees, maxEmployees } = searchCriteria` — absent keys
destructure to `undefined`, i.e. `none`. -/
structure SearchCriteria where
  name : Option String := none
  minEmployees : Option Int := none
  maxEmployees : Option Int := none
deriving DecidableEq, Repr

/-- The `whereClauses` / `whereValues` accumulation of src/models/company.js
lines 93-106, in source order (minEmployees, then maxEmployees, then name).
Each branch pushes the bound value first and then a clause whose placeholder
index is the new length of `whereValues`, exactly as the code reads
`whereValues.length` after the push. -/
def whereParts (minEmployees maxEmployees : Option Int) (name : Option String) :
    List String × List SqlValue :=
  let acc : List String × List SqlValue := ([], [])
  let acc :=
    match minEmployees with
    | some m =>
        let whereValues := acc.2 ++ [SqlValue.num m]
        (acc.1 ++ ["num_employees >= $" ++ toString whereValues.length], whereValues)
    | none => acc
  let acc :=
    match maxEmployees with
    | some m =>
        let whereValues := acc.2 ++ [SqlValue.num m]
        (acc.1 ++ ["num_employees <= $" ++ toString whereValues.length], whereValues)
    | none => acc
  let acc :=
    match name with
    | some n =>
        let whereValues := acc.2 ++ [SqlValue.str ("%" ++ n ++ "%")]
        (acc.1 ++ ["name ILIKE $" ++ toString whereValues.length], whereValues)
    | none => acc
  acc

/-- src/models/company.js `Company.findAll(searchCriteria)`, lines 77-114.
Returns the final query string and the positionally-matched value list that
are handed to `db.query(finalQuery, whereValues)`, or the `BadRequestError`
thrown by the range guard on line 89 (in which case `db.query` is never
reached). -/
def findAll (searchCriteria : SearchCriteria) : Except JoblyError (String × List SqlValue) :=
  if jsGT searchCriteria.minEmployees searchCriteria.maxEmployees then
    .error (.badRequest "minEmployees cannot be greater than maxEmployees")
  else
    let acc := whereParts searchCriteria.minEmployees searchCriteria.maxEmployees
      searchCriteria.name
    let q :=
      if acc.1.length > 0 then baseQuery ++ "WHERE" ++ String.intercalate " AND " acc.1
      else baseQuery
    .ok (q ++ "ORDER BY name", acc.2)

end Company

namespace Job

/-- The `baseQuery` template literal of src/models/job.js lines 65-72,
verbatim (it ends immediately after `j.company_handle`, with no trailing
whitespace). -/
def baseQuery : String :=
  "SELECT j.id,\n                                j.title,\n                                j.salary,\n                                j.equity,\n                                j.company_handle AS \"companyHandle\",\n                                c.name AS \"companyName\"\n                         FROM jobs j\n                            LEFT JOIN companies AS c ON c.handle = j.company_handle"

/-- The destructured `searchCriteria` of src/models/job.js line 73:
`const { title, minSalary, hasEquity } = searchCriteria`. -/
structure SearchCriteria where
  title : Option String := none
  minSalary : Option Int := none
  hasEquity : Option Bool := none
deriving DecidableEq, Repr

/-- The `whereClauses` / `whereValues` accumulation of src/models/job.js
lines 77-91, in source order (title, then minSalary, then hasEquity).  The
title value is bound wrapped as `%title%`; the hasEquity branch is the nested
`if (hasEquity !== undefined) { if (hasEquity === true) ... }` and pushes the
fixed clause `equity > 0` with no bound value. -/
def whereParts (title : Option String) (minSalary : Option Int) (hasEquity : Option Bool) :
    List String × List SqlValue :=
  let acc : List String × List SqlValue := ([], [])
  let acc :=
    match title with
    | some t =>
        let whereValues := acc.2 ++ [SqlValue.str ("%" ++ t ++ "%")]
        (acc.1 ++ ["title ILIKE $" ++ toString whereValues.length], whereValues)
    | none => acc
  let acc :=
    match minSalary with
    | some m =>
        let whereValues := acc.2 ++ [SqlValue.num m]
        (acc.1 ++ ["salary >= $" ++ toString whereValues.length], whereValues)
    | none => acc
  let acc :=
    match hasEquity with
    | some b => if b = true then (acc.1 ++ ["equity > 0"], acc.2) else acc
    | none => acc
  acc

/-- src/models/job.js `Job.findAll(searchCriteria)`, lines 64-99.  This
method never throws; it returns the final query string and value list handed
to `db.query(finalQuery, whereValues)`. -/
def findAll (searchCriteria : SearchCriteria) : String × List SqlValue :=
  let acc := whereParts searchCriteria.title searchCriteria.minSalary
    searchCriteria.hasEquity
  let q :=
    if acc.1.length > 0 then baseQuery ++ "WHERE" ++ String.intercalate " AND " acc.1
    else baseQuery
  (q ++ "ORDER BY title", acc.2)

end Job

namespace Company001

/-- The `query` template literal of src/unnamed/part_001 lines 79-84,
verbatim (no trailing `WHERE` in this variant). -/
def baseQuery : String :=
  "SELECT handle,\n                    name,\n                    description,\n                    num_employees AS \"numEmployees\",\n                    logo_url AS \"logoUrl\"\n                 FROM companies"

/-- The `whereClauses` / `queryValues` accumulation of src/unnamed/part_001
lines 93-107, in source order (minEmployees, then maxEmployees, then name).
The numeric bounds are tested with `!== undefined`, but `name` is tested with
plain truthiness `if (name)`, so a supplied empty string is skipped. -/
def whereParts (minEmployees maxEmployees : Option Int) (name : Option String) :
    List String × List SqlValue :=
  let acc : List String × List SqlValue := ([], [])
  let acc :=
    match minEmployees with
    | some m =>
        let queryValues := acc.2 ++ [SqlValue.num m]
        (acc.1 ++ ["num_employees >= $" ++ toString queryValues.length], queryValues)
    | none => acc
  let acc :=
    match maxEmployees with
    | some m =>
        let queryValues := acc.2 ++ [SqlValue.num m]
        (acc.1 ++ ["num_employees <= $" ++ toString queryValues.length], queryValues)
    | none => acc
  let acc :=
    if jsTruthyStr name then
      match name with
      | some n =>
          let queryValues := acc.2 ++ [SqlValue.str ("%" ++ n ++ "%")]
          (acc.1 ++ ["name ILIKE $" ++ toString queryValues.length], queryValues)
      | none => acc
    else acc
  acc

/-- src/unnamed/part_001 `Company.findAll(searchCriteria)`, lines 78-116
(the second company-model variant).  Destructures
`const { minEmployees, maxEmployees, name } = searchCriteria`, guards the
range on line 89, then assembles `query += " WHERE " + join(" AND ")` and
`query += " ORDER BY name"`. -/
def findAll (minEmployees maxEmployees : Option Int) (name : Option String) :
    Except JoblyError (String × List SqlValue) :=
  if jsGT minEmployees maxEmployees then
    .error (.badRequest "Min employees greater than max employees")
  else
    let acc := whereParts minEmployees maxEmployees name
    let q :=
      if acc.1.length > 0 then baseQuery ++ " WHERE " ++ String.intercalate " AND " acc.1
      else baseQuery
    .ok (q ++ " ORDER BY name", acc.2)

end Company001

namespace JoblyJob

/-- The `query` template literal of src/Jobly/models/job.js lines 66-73,
verbatim (including the stray trailing space after `j.title,`). -/
def baseQuery : String :=
  "SELECT j.id,\n                      j.title, \n                      j.salary,\n                      j.equity,\n                      j.company_handle AS \"companyHandle\",\n                      c.name AS \"companyName\"\n                    FROM jobs j\n                      LEFT JOIN companies AS c ON c.handle = j.company_handle"

/-- The `whereClauses` / `whereValues` accumulation of src/Jobly/models/job.js
lines 78-90, in source order (title, then minSalary, then hasEquity).  Note
two literal quirks of this variant, copied exactly: the title value is pushed
as `%title$` (line 79, a `$` where its sibling implementations write `%`),
and the minSalary clause template carries a trailing space. -/
def whereParts (title : Option String) (minSalary : Option Int) (hasEquity : Option Bool) :
    List String × List SqlValue :=
  let acc : List String × List SqlValue := ([], [])
  let acc :=
    match title with
    | some t =>
        let whereValues := acc.2 ++ [SqlValue.str ("%" ++ t ++ "$")]
        (acc.1 ++ ["title ILIKE $" ++ toString whereValues.length], whereValues)
    | none => acc
  let acc :=
    match minSalary with
    | some m =>
        let whereValues := acc.2 ++ [SqlValue.num m]
        (acc.1 ++ ["salary >= $" ++ toString whereValues.length ++ " "], whereValues)
    | none => acc
  let acc :=
    match hasEquity with
    | some b => if b = true then (acc.1 ++ ["equity > 0"], acc.2) else acc
    | none => acc
  acc

/-- src/Jobly/models/job.js `Job.findAll(searchCriteria)`, lines 65-99 (the
second job-model variant).  Destructures
`const {minSalary, title, hasEquity} = searchCriteria`; the hasEquity branch
is the single test `if (hasEquity === true)`; assembles
`query += " WHERE " + join(" AND ")` and `query += " ORDER BY title"`. -/
def findAll (searchCriteria : Job.SearchCriteria) : String × List SqlValue :=
  let acc := whereParts searchCriteria.title searchCriteria.minSalary
    searchCriteria.hasEquity
  let q :=
    if acc.1.length > 0 then baseQuery ++ " WHERE " ++ String.intercalate " AND " acc.1
    else baseQuery
  (q ++ " ORDER BY title", acc.2)

end JoblyJob

namespace Company

/-- src/models/company.js `Company.update(handle, data)`, lines 169-188: the
query string and value list handed to `db.query(querySql, [...values, handle])`,
with `sqlForPartialUpdate` invoked first (so its `BadRequestError` propagates
before any query exists). -/
def update (handle : String) (data : List (String × SqlValue)) :
    Except JoblyError (String × List SqlValue) := do
  let r ← sqlForPartialUpdate data [("numEmployees", "num_employees"), ("logoUrl", "logo_url")]
  let setCols := r.1
  let values := r.2
  let handleVarIdx := "$" ++ toString (values.length + 1)
  let querySql := "UPDATE companies \n                      SET " ++ setCols ++
    " \n                      WHERE handle = " ++ handleVarIdx ++
    " \n                      RETURNING handle, \n                                name, \n                                description, \n                                num_employees AS \"numEmployees\", \n                                logo_url AS \"logoUrl\""
  .ok (querySql, values ++ [SqlValue.str handle])

end Company

end Jobly

namespace Jobly

/- Helper lemmas characterizing the query string produced by
`Company.findAll` in terms of key presence alone. -/

theorem company_findAll_ok_query (sc : Company.SearchCriteria) (q : String)
    (v : List SqlValue) (h : Company.findAll sc = .ok (q, v)) :
    q = (if (Company.whereParts sc.minEmployees sc.maxEmployees sc.name).1.length > 0
         then Company.baseQuery ++ "WHERE" ++ String.intercalate " AND "
              (Company.whereParts sc.minEmployees sc.maxEmployees sc.name).1
         else Company.baseQuery) ++ "ORDER BY name" := by
  unfold Company.findAll at h
  split at h
  · exact absurd h (by simp)
  · simp only [Except.ok.injEq, Prod.mk.injEq] at h
    exact h.1.symm

theorem company_whereParts_clauses_presence (ma mb xa xb : Option Int)
    (na nb : Option String)
    (hmin : ma.isSome = mb.isSome) (hmax : xa.isSome = xb.isSome)
    (hn : na.isSome = nb.isSome) :
    (Company.whereParts ma xa na).1 = (Company.whereParts mb xb nb).1 := by
  cases ma <;> cases mb <;> cases xa <;> cases xb <;> cases na <;> cases nb <;>
    simp_all [Company.whereParts]

theorem job_whereParts_clauses_presence (ta tb : Option String) (sa sb : Option Int)
    (e : Option Bool) (ht : ta.isSome = tb.isSome) (hs : sa.isSome = sb.isSome) :
    (Job.whereParts ta sa e).1 = (Job.whereParts tb sb e).1 := by
  cases ta <;> cases tb <;> cases sa <;> cases sb <;> rcases e with _ | (_ | _) <;>
    simp_all [Job.whereParts]

/-- Claim C1: for both builders the produced clause string depends only on
which keys were supplied, never on the supplied values.  For
`sqlForPartialUpdate`, two data objects with the same key list yield the same
`setCols` string (the values differ only in the positionally-matched value
list, which `Except.map Prod.fst` discards); for `Company.findAll`, two
criteria objects supplying the same key set yield identical query strings
whenever both calls succeed; for `Job.findAll`, two criteria supplying the
same key set and the same hasEquity boolean yield identical query strings. -/
theorem c1_clause_depends_only_on_keys
    (d1 d2 : List (String × SqlValue)) (jsToSql : List (String × String))
    (hk : d1.map Prod.fst = d2.map Prod.fst)
    (ca cb : Company.SearchCriteria)
    (hn : ca.name.isSome = cb.name.isSome)
    (hmin : ca.minEmployees.isSome = cb.minEmployees.isSome)
    (hmax : ca.maxEmployees.isSome = cb.maxEmployees.isSome)
    (q1 q2 : String) (v1 v2 : List SqlValue)
    (h1 : Company.findAll ca = .ok (q1, v1))
    (h2 : Company.findAll cb = .ok (q2, v2))
    (ta tb : Option String) (sa sb : Option Int) (e : Option Bool)
    (ht : ta.isSome = tb.isSome) (hs : sa.isSome = sb.isSome) :
    Except.map Prod.fst (sqlForPartialUpdate d1 jsToSql) =
      Except.map Prod.fst (sqlForPartialUpdate d2 jsToSql)
    ∧ q1 = q2
    ∧ (Job.findAll ⟨ta, sa, e⟩).1 = (Job.findAll ⟨tb, sb, e⟩).1 := by
  refine ⟨?_, ?_, ?_⟩
  · unfold sqlForPartialUpdate
    rw [hk]
    by_cases hz : (d2.map Prod.fst).length = 0
    · rw [if_pos hz, if_pos hz]
    · rw [if_neg hz, if_neg hz]
      rfl
  · rw [company_findAll_ok_query ca q1 v1 h1, company_findAll_ok_query cb q2 v2 h2,
      company_whereParts_clauses_presence ca.minEmployees cb.minEmployees
        ca.maxEmployees cb.maxEmployees ca.name cb.name hmin hmax hn]
  · have eja : (Job.findAll ⟨ta, sa, e⟩).1 =
        (if (Job.whereParts ta sa e).1.length > 0
         then Job.baseQuery ++ "WHERE" ++
           String.intercalate " AND " (Job.whereParts ta sa e).1
         else Job.baseQuery) ++ "ORDER BY title" := rfl
    have ejb : (Job.findAll ⟨tb, sb, e⟩).1 =
        (if (Job.whereParts tb sb e).1.length > 0
         then Job.baseQuery ++ "WHERE" ++
           String.intercalate " AND " (Job.whereParts tb sb e).1
         else Job.baseQuery) ++ "ORDER BY title" := rfl
    rw [eja, ejb, job_whereParts_clauses_presence ta tb sa sb e ht hs]

/-- Witness for C1 at concrete inputs: two single-key updates with different
values produce the same clause, and two company searches supplying the keys
minEmployees and name with different values produce the same query string. -/
theorem c1_clause_depends_only_on_keys_witness :
    Except.map Prod.fst (sqlForPartialUpdate [("name", SqlValue.str "Apple")]
        [("logoUrl", "logo_url")]) =
      Except.map Prod.fst (sqlForPartialUpdate [("name", SqlValue.str "Google")]
        [("logoUrl", "logo_url")])
    ∧ (Company.baseQuery ++ "WHERE" ++ "num_employees >= $1 AND name ILIKE $2"
        ++ "ORDER BY name")
      = (Company.baseQuery ++ "WHERE" ++ "num_employees >= $1 AND name ILIKE $2"
        ++ "ORDER BY name")
    ∧ (Job.findAll ⟨some "ob", some 20000, some true⟩).1 =
      (Job.findAll ⟨some "ng", some 70000, some true⟩).1 :=
  c1_clause_depends_only_on_keys
    [("name", SqlValue.str "Apple")] [("name", SqlValue.str "Google")]
    [("logoUrl", "logo_url")] rfl
    ⟨some "net", some 1, none⟩ ⟨some "web", some 500, none⟩ rfl rfl rfl
    (Company.baseQuery ++ "WHERE" ++ "num_employees >= $1 AND name ILIKE $2"
      ++ "ORDER BY name")
    (Company.baseQuery ++ "WHERE" ++ "num_employees >= $1 AND name ILIKE $2"
      ++ "ORDER BY name")
    [SqlValue.num 1, SqlValue.str "%net%"] [SqlValue.num 500, SqlValue.str "%web%"]
    rfl rfl
    (some "ob") (some "ng") (some 20000) (some 70000) (some true) rfl rfl

/-- Claim C2: for every non-empty field mapping with N fields,
`sqlForPartialUpdate` produces the join of exactly N assignment strings (one
per field, in iteration order) and the N values in the same order; the ith
assignment (0-based) carries placeholder number i+1, so numbering is
contiguous from 1 and placeholder i matches values at position i-1 (1-based).
Likewise `Job.findAll`'s WHERE parts number their placeholders contiguously
from 1: the title clause (when present) is always number 1, the minSalary
clause is number 1 plus the number of values already bound by title, and the
hasEquity clause binds nothing and advances no index. -/
theorem c2_contiguous_placeholders (d : List (String × SqlValue))
    (jsToSql : List (String × String)) (hd : d ≠ []) :
    sqlForPartialUpdate d jsToSql =
      .ok (String.intercalate ", " ((d.map Prod.fst).enum.map (fun p =>
            "\"" ++ aliasOrKey jsToSql p.2 ++ "\"=$" ++ toString (p.1 + 1))),
           d.map Prod.snd)
    ∧ ((d.map Prod.fst).enum.map (fun p =>
          "\"" ++ aliasOrKey jsToSql p.2 ++ "\"=$" ++ toString (p.1 + 1))).length
        = d.length
    ∧ (d.map Prod.snd).length = d.length
    ∧ (∀ i k, (d.map Prod.fst)[i]? = some k →
        ((d.map Prod.fst).enum.map (fun p =>
          "\"" ++ aliasOrKey jsToSql p.2 ++ "\"=$" ++ toString (p.1 + 1)))[i]? =
          some ("\"" ++ aliasOrKey jsToSql k ++ "\"=$" ++ toString (i + 1)))
    ∧ (∀ t s e, Job.whereParts t s e =
        ((t.toList.map (fun _ => "title ILIKE $1"))
          ++ (s.toList.map (fun _ => "salary >= $" ++ toString (t.toList.length + 1)))
          ++ (if e = some true then ["equity > 0"] else []),
         (t.toList.map (fun t0 => SqlValue.str ("%" ++ t0 ++ "%")))
          ++ (s.toList.map (fun m => SqlValue.num m)))) := by
  have hlen : ¬ (d.map Prod.fst).length = 0 := by
    simpa [List.length_eq_zero] using hd
  refine ⟨?_, ?_, ?_, ?_, ?_⟩
  · simp [sqlForPartialUpdate, hd]
  · simp
  · simp
  · intro i k hik
    simp [List.getElem?_map, List.getElem?_enum, hik]
  · intro t s e
    cases t <;> cases s <;> rcases e with _ | (_ | _) <;> first
      | rfl
      | (simp [Job.whereParts]; rfl)

/-- Witness for C2: the two-field update of the repository's own test
(src/Jobly/helpers/sql.test.js) evaluated through the theorem. -/
theorem c2_contiguous_placeholders_witness :
    sqlForPartialUpdate
        [("firstName", SqlValue.str "Angie"), ("lastName", SqlValue.str "Smith")]
        [("firstName", "first_name"), ("lastName", "last_name")] =
      .ok ("\"first_name\"=$1, \"last_name\"=$2",
           [SqlValue.str "Angie", SqlValue.str "Smith"]) :=
  (c2_contiguous_placeholders
    [("firstName", SqlValue.str "Angie"), ("lastName", SqlValue.str "Smith")]
    [("firstName", "first_name"), ("lastName", "last_name")]
    (List.cons_ne_nil _ _)).1

/-- Claim C3: calling `sqlForPartialUpdate` with an empty field mapping (any
alias mapping) yields `BadRequestError("No data")`, thrown synchronously at
the top of the function; consequently `Company.update` with empty data
propagates the same error before any UPDATE query string is ever built, so no
query is dispatched and no database state is touched. -/
theorem c3_empty_update_rejected (jsToSql : List (String × String))
    (handle : String) :
    sqlForPartialUpdate [] jsToSql = .error (.badRequest "No data")
    ∧ Company.update handle [] = .error (.badRequest "No data") :=
  ⟨rfl, rfl⟩

/-- Witness for C3 at concrete inputs. -/
theorem c3_empty_update_rejected_witness :
    sqlForPartialUpdate [] [("numEmployees", "num_employees")] =
      .error (.badRequest "No data")
    ∧ Company.update "c1" [] = .error (.badRequest "No data") :=
  c3_empty_update_rejected [("numEmployees", "num_employees")] "c1"

/-- Claim C4 (refuted by src/models/company.js — the supporting evaluation):
with zero recognized filter keys the clause list and bound-value list are
indeed empty, but the executed company query is NOT free of the WHERE
keyword: the base query template itself ends with a dangling `WHERE `, so
`Company.findAll({})` dispatches `... FROM companies\n  WHERE ORDER BY name`.
Moreover when a filter IS supplied the code appends a second `WHERE`.  The
job model's zero-filter query, by contrast, contains no WHERE keyword (though
the sort is glued on without a separating space). -/
theorem c4_zero_filters_dangling_where :
    Company.findAll ⟨none, none, none⟩ = .ok (Company.baseQuery ++ "ORDER BY name", [])
    ∧ Company.baseQuery =
        "SELECT handle,\n                            name,\n                            description,\n                            num_employees AS \"numEmployees\",\n                            logo_url AS \"logoUrl\"\n                     FROM companies\n"
          ++ "                     WHERE "
    ∧ Company.findAll ⟨none, some 1, none⟩ =
        .ok (Company.baseQuery ++ "WHERE" ++ "num_employees >= $1" ++ "ORDER BY name",
             [SqlValue.num 1])
    ∧ Job.findAll ⟨none, none, none⟩ = (Job.baseQuery ++ "ORDER BY title", []) :=
  ⟨rfl, rfl, rfl, rfl⟩

/-- Claim C5 (refuted by src/Jobly/models/job.js — the supporting
evaluation): the company name filter and the src/models/job.js title filter
bind exactly one value wrapped `%value%`, but the src/Jobly/models/job.js
variant cited by the claim binds the title wrapped `%value$` (line 79), which
is not the `%ob1%` containment pattern the claim requires. -/
theorem c5_pattern_wrapping :
    Company.whereParts none none (some "ob1") =
      (["name ILIKE $1"], [SqlValue.str "%ob1%"])
    ∧ Job.whereParts (some "ob1") none none =
      (["title ILIKE $1"], [SqlValue.str "%ob1%"])
    ∧ JoblyJob.whereParts (some "ob1") none none =
      (["title ILIKE $1"], [SqlValue.str "%ob1$"])
    ∧ ("%ob1$" : String) ≠ "%ob1%" :=
  ⟨rfl, rfl, rfl, by decide⟩

/-- Claim C6: for the one entity with a lower/upper range pair (companies, in
both model variants), supplying minEmployees > maxEmployees makes findAll
throw `BadRequestError` — the guard runs before any clause is built or any
query dispatched, so the result is the error, not a query. -/
theorem c6_range_pair_rejected (a b : Int) (nm : Option String) (h : a > b) :
    Company.findAll ⟨nm, some a, some b⟩ =
      .error (.badRequest "minEmployees cannot be greater than maxEmployees")
    ∧ Company001.findAll (some a) (some b) nm =
      .error (.badRequest "Min employees greater than max employees") := by
  have hg : jsGT (some a) (some b) = true := by simpa [jsGT] using h
  constructor
  · unfold Company.findAll
    rw [hg]
    rfl
  · unfold Company001.findAll
    rw [hg]
    rfl

/-- Witness for C6: minEmployees 3 with maxEmployees 1 is rejected by both
company-model variants. -/
theorem c6_range_pair_rejected_witness :
    Company.findAll ⟨none, some 3, some 1⟩ =
      .error (.badRequest "minEmployees cannot be greater than maxEmployees")
    ∧ Company001.findAll (some 3) (some 1) none =
      .error (.badRequest "Min employees greater than max employees") :=
  c6_range_pair_rejected 3 1 none (by decide)

/-- Claim C7: the hasEquity flag is asymmetric in both job-model variants:
supplying `hasEquity: false` produces output identical to omitting the key,
and only the value exactly `true` appends the fixed clause `equity > 0`,
which binds no value (the bound-value list is unchanged), so it advances no
placeholder index. -/
theorem c7_hasEquity_asymmetric (t : Option String) (s : Option Int) :
    Job.findAll ⟨t, s, some false⟩ = Job.findAll ⟨t, s, none⟩
    ∧ JoblyJob.findAll ⟨t, s, some false⟩ = JoblyJob.findAll ⟨t, s, none⟩
    ∧ (Job.whereParts t s (some true)).1 = (Job.whereParts t s none).1 ++ ["equity > 0"]
    ∧ (Job.whereParts t s (some true)).2 = (Job.whereParts t s none).2
    ∧ (JoblyJob.whereParts t s (some true)).1 =
        (JoblyJob.whereParts t s none).1 ++ ["equity > 0"]
    ∧ (JoblyJob.whereParts t s (some true)).2 = (JoblyJob.whereParts t s none).2 :=
  ⟨rfl, rfl, rfl, rfl, rfl, rfl⟩

/-- Witness for C7 at a concrete criteria set (title "ng", minSalary 100). -/
theorem c7_hasEquity_asymmetric_witness :
    Job.findAll ⟨some "ng", some 100, some false⟩ =
      Job.findAll ⟨some "ng", some 100, none⟩
    ∧ JoblyJob.findAll ⟨some "ng", some 100, some false⟩ =
      JoblyJob.findAll ⟨some "ng", some 100, none⟩
    ∧ (Job.whereParts (some "ng") (some 100) (some true)).1 =
        (Job.whereParts (some "ng") (some 100) none).1 ++ ["equity > 0"]
    ∧ (Job.whereParts (some "ng") (some 100) (some true)).2 =
        (Job.whereParts (some "ng") (some 100) none).2
    ∧ (JoblyJob.whereParts (some "ng") (some 100) (some true)).1 =
        (JoblyJob.whereParts (some "ng") (some 100) none).1 ++ ["equity > 0"]
    ∧ (JoblyJob.whereParts (some "ng") (some 100) (some true)).2 =
        (JoblyJob.whereParts (some "ng") (some 100) none).2 :=
  c7_hasEquity_asymmetric (some "ng") (some 100)

/-- Counterexample for C8: the key "x" IS present in the alias mapping
(mapped to the empty string), yet the emitted assignment uses the key "x"
itself, not the present alias "" — JS `jsToSql[colName] || colName` falls
through on any falsy alias, not only on an absent key. -/
theorem c8_alias_counterexample :
    List.lookup "x" [("x", "")] = some ""
    ∧ sqlForPartialUpdate [("x", SqlValue.num 1)] [("x", "")] =
        .ok ("\"x\"=$1", [SqlValue.num 1])
    ∧ ("\"x\"=$1" : String) ≠ "\"\"=$1" :=
  ⟨rfl, rfl, by decide⟩

/-- Claim C8 as amended: the column name emitted for a key is `aliases[key]`
whenever that key maps to a non-empty (truthy) alias, and the key itself
unchanged when the key is absent from the alias mapping or maps to the empty
string; in particular `build({x:1},{x:"col_x"})` yields `"col_x"=$1` and
`build({x:1},{})` yields `"x"=$1`. -/
theorem c8_alias_resolution (jsToSql : List (String × String)) (k : String)
    (v : SqlValue) :
    sqlForPartialUpdate [(k, v)] jsToSql =
      .ok ("\"" ++ aliasOrKey jsToSql k ++ "\"=$" ++ toString 1, [v])
    ∧ (∀ a, jsToSql.lookup k = some a → a ≠ "" → aliasOrKey jsToSql k = a)
    ∧ (jsToSql.lookup k = some "" → aliasOrKey jsToSql k = k)
    ∧ (jsToSql.lookup k = none → aliasOrKey jsToSql k = k) := by
  refine ⟨rfl, ?_, ?_, ?_⟩
  · intro a ha hne
    simp [aliasOrKey, ha, hne]
  · intro ha
    simp [aliasOrKey, ha]
  · intro ha
    simp [aliasOrKey, ha]

/-- Witness for C8 as amended: the spec's own two examples. -/
theorem c8_alias_resolution_witness :
    sqlForPartialUpdate [("x", SqlValue.num 1)] [("x", "col_x")] =
      .ok ("\"col_x\"=$1", [SqlValue.num 1])
    ∧ sqlForPartialUpdate [("x", SqlValue.num 1)] [] =
      .ok ("\"x\"=$1", [SqlValue.num 1]) :=
  ⟨(c8_alias_resolution [("x", "col_x")] "x" (SqlValue.num 1)).1,
   (c8_alias_resolution [] "x" (SqlValue.num 1)).1⟩

/-- Claim C9: `Company.findAll` raises its range error exactly when both
bounds are supplied with min > max; JS compares `undefined` as false, so a
single supplied bound never errors (the embedded `jsGT` returns false
whenever either side is absent). -/
theorem c9_range_error_iff (mn mx : Option Int) (nm : Option String) :
    ((∃ e, Company.findAll ⟨nm, mn, mx⟩ = .error e) ↔
      (∃ a b, mn = some a ∧ mx = some b ∧ a > b))
    ∧ jsGT mn none = false ∧ jsGT none mx = false := by
  refine ⟨?_, ?_, ?_⟩
  · cases mn with
    | none => simp [Company.findAll, jsGT]
    | some a =>
        cases mx with
        | none => simp [Company.findAll, jsGT]
        | some b =>
            by_cases h : a > b <;> simp [Company.findAll, jsGT, h]
  · cases mn <;> rfl
  · cases mx <;> rfl

/-- Witness for C9: a single supplied bound (minEmployees 5) never errors,
while a supplied inconsistent pair (5, 2) does. -/
theorem c9_range_error_iff_witness :
    (¬ ∃ e, Company.findAll ⟨none, some 5, none⟩ = .error e)
    ∧ (∃ e, Company.findAll ⟨none, some 5, some 2⟩ = .error e) := by
  constructor
  · intro hx
    obtain ⟨a, b, _, hb, _⟩ := (c9_range_error_iff (some 5) none none).1.mp hx
    exact Option.noConfusion hb
  · exact (c9_range_error_iff (some 5) (some 2) none).1.mpr ⟨5, 2, rfl, rfl, by decide⟩

/-- Claim C10: in the part_001 company variant, a supplied empty-string name
filter behaves identically to omitting name (truthiness test `if (name)`),
while a numeric bound of 0 is honored as a real filter (strict
`!== undefined` test): supplying minEmployees 0 emits the clause
`num_employees >= $1` and binds 0, unlike the unfiltered query. -/
theorem c10_truthiness_vs_undefined (mn mx : Option Int) :
    Company001.findAll mn mx (some "") = Company001.findAll mn mx none
    ∧ Company001.findAll (some 0) none none =
        .ok (Company001.baseQuery ++ " WHERE " ++ "num_employees >= $1"
              ++ " ORDER BY name", [SqlValue.num 0])
    ∧ Company001.findAll none none none =
        .ok (Company001.baseQuery ++ " ORDER BY name", []) :=
  ⟨rfl, rfl, rfl⟩

/-- Witness for C10 at concrete bounds (2, 7). -/
theorem c10_truthiness_vs_undefined_witness :
    Company001.findAll (some 2) (some 7) (some "") =
      Company001.findAll (some 2) (some 7) none :=
  (c10_truthiness_vs_undefined (some 2) (some 7)).1

end Jobly
